import Mathlib

/-!
# Service discovery poller (`Frontend/service-discovery.js`)

A shallow embedding of the poll / transform / write cycle of the Prometheus
file-based service discovery script, and the properties of its manifest, of its
emergency write and of its retained content fingerprint.

Modelling conventions.

* The body of a 200 response, once `JSON.parse` accepted it, is read at the
  type the gateway documents: `success` a boolean, `message` an optional
  string, `servers` an optional object whose values are records with a string
  `status` and an optional `config` object with a string `host`, an integer
  `port` and an optional string `name`. `servers` is given as the sequence
  `Object.entries` returns.
* Ports are integers of magnitude at most `2^53`: those `JSON.parse` reads
  exactly and a template literal prints in plain decimal.
* The process state is the content of `TARGETS_FILE` together with the module
  variable `lastTargetsHash`. What the network and the file system answer in a
  cycle is an explicit argument (`CycleEnv`); a failed write may leave the
  file in any condition. The body of `discoverServers` after its single
  `await` runs to completion without suspension, so cycles act on the state
  one after the other. The promise of `makeRequest` may also never settle;
  the cycle then stays suspended at line 60 and does nothing. The first call
  is awaited (line 145), so a sequence of cycles whose first request never
  settles has that one cycle only.
* File system calls are recorded by call site in an event list. Console
  output is not modelled.
-/

namespace ServiceDiscovery

/-! ## Input data -/

/-- The `config` object of a server record. -/
structure ServerConfig where
  host : String
  port : Int
  name : Option String
  deriving DecidableEq

/-- One value of the `servers` object. -/
structure ServerRecord where
  status : String
  config : Option ServerConfig
  deriving DecidableEq

/-- The decoded body of the gateway's status endpoint. -/
structure RegistryResponse where
  success : Bool
  message : Option String
  servers : Option (List (String × ServerRecord))
  deriving DecidableEq

/-! ## Output data -/

/-- The object literal of lines 79-87: `targets` is an array of strings and
`labels` an object with string values, kept as its properties in insertion
order. -/
structure Target where
  targets : List String
  labels : List (String × String)
  deriving DecidableEq

/-- Property lookup in the `labels` object. -/
def Target.label (t : Target) (key : String) : Option String :=
  t.labels.lookup key

/-! ## Constants -/

/-- The host name written at line 76. -/
def dockerHost : String := "host.docker.internal"

/-- The `job` label written at line 82. -/
def jobName : String := "rest-servers"

/-! ## Transform (lines 66-94) -/

/-- Decimal digits of a natural number, most significant first. -/
def decimalDigits : Nat → Nat → List Char
  | 0, _ => []
  | fuel + 1, n =>
    if n < 10 then [Char.ofNat (48 + n)]
    else decimalDigits fuel (n / 10) ++ [Char.ofNat (48 + n % 10)]

/-- Rendering of an integer inside a template literal. -/
def numberToString (n : Int) : String :=
  match n with
  | Int.ofNat k => String.mk (decimalDigits (k + 1) k)
  | Int.negSucc k => String.mk (Char.ofNat 45 :: decimalDigits (k + 2) (k + 1))

/-- `a || b` for an optional string `a`: the empty string is falsy, like the
absent value. -/
def orElse (a : Option String) (b : String) : String :=
  match a with
  | some s => if s = "" then b else s
  | none => b

/-- Lines 74-77: the host the scraper connects to. -/
def targetHost (host : String) : String :=
  if host = "localhost" ∨ host = "127.0.0.1" then dockerHost else host

/-- Lines 74-87: the target built for an eligible record. -/
def makeTarget (serverId : String) (config : ServerConfig) : Target :=
  { targets := [targetHost config.host ++ ":" ++ numberToString config.port]
    labels :=
      [("job", jobName),
       ("server_id", serverId),
       ("server_name", orElse config.name serverId),
       ("instance", config.host ++ ":" ++ numberToString config.port)] }

/-- The two variables the loop updates. -/
structure Collected where
  targets : List Target
  activeCount : Nat
  deriving DecidableEq

/-- One iteration of the loop of line 71 (lines 72-92). -/
def processEntry (acc : Collected) (entry : String × ServerRecord) : Collected :=
  if entry.2.status = "ACTIVE" then
    match entry.2.config with
    | some config =>
      { targets := acc.targets ++ [makeTarget entry.1 config]
        activeCount := acc.activeCount + 1 }
    | none => acc
  else acc

/-- Lines 66-94: `targets` and `activeCount` once the loop is over. -/
def collectTargets (response : RegistryResponse) : Collected :=
  match response.servers with
  | some servers => servers.foldl processEntry { targets := [], activeCount := 0 }
  | none => { targets := [], activeCount := 0 }

/-! ## Serialization (line 107) -/

/-- Two spaces: the indentation unit of `JSON.stringify(_, null, 2)`. -/
def gap : String := "  "

/-- Four lower-case hexadecimal digits. -/
def hex4 (n : Nat) : List Char :=
  [12, 8, 4, 0].map fun s => "0123456789abcdef".data.getD ((n >>> s) % 16) (Char.ofNat 48)

/-- Escape of one character inside a JSON string. -/
def quoteChar (c : Char) : List Char :=
  if c.toNat = 0x08 then "\\b".data
  else if c.toNat = 0x09 then "\\t".data
  else if c.toNat = 0x0A then "\\n".data
  else if c.toNat = 0x0C then "\\f".data
  else if c.toNat = 0x0D then "\\r".data
  else if c.toNat = 0x22 then "\\\"".data
  else if c.toNat = 0x5C then "\\\\".data
  else if c.toNat < 0x20 then "\\u".data ++ hex4 c.toNat
  else [c]

/-- A string as a JSON string literal. -/
def quoteJSONString (s : String) : String :=
  "\"" ++ String.mk (s.data.flatMap quoteChar) ++ "\""

/-- An array whose elements are already serialized, at indentation `indent`. -/
def serializeArray (indent : String) (items : List String) : String :=
  match items with
  | [] => "[]"
  | _ :: _ =>
    "[\n" ++ indent ++ gap ++ String.intercalate (",\n" ++ indent ++ gap) items
      ++ "\n" ++ indent ++ "]"

/-- An object whose property values are already serialized, at indentation
`indent`. -/
def serializeObject (indent : String) (members : List (String × String)) : String :=
  match members with
  | [] => "\x7b\x7d"
  | _ :: _ =>
    "\x7b\n" ++ indent ++ gap
      ++ String.intercalate (",\n" ++ indent ++ gap)
          (members.map fun m => quoteJSONString m.1 ++ ": " ++ m.2)
      ++ "\n" ++ indent ++ "\x7d"

/-- One target at indentation `indent`. -/
def stringifyTarget (indent : String) (t : Target) : String :=
  serializeObject indent
    [("targets", serializeArray (indent ++ gap) (t.targets.map quoteJSONString)),
     ("labels", serializeObject (indent ++ gap)
        (t.labels.map fun kv => (kv.1, quoteJSONString kv.2)))]

/-- Line 107: `JSON.stringify(targets, null, 2)`. -/
def stringifyTargets (targets : List Target) : String :=
  serializeArray "" (targets.map (stringifyTarget gap))

/-! ## Fingerprint (line 108)

`crypto.createHash('sha256').update(targetsJson).digest('hex')`: SHA-256
(FIPS 180-4) of the UTF-8 bytes, in lower-case hexadecimal. Words are natural
numbers reduced modulo `2^32`. -/

/-- The round constants. -/
def sha256K : List Nat :=
  [0x428a2f98, 0x71374491, 0xb5c0fbcf, 0xe9b5dba5, 0x3956c25b, 0x59f111f1, 0x923f82a4, 0xab1c5ed5,
   0xd807aa98, 0x12835b01, 0x243185be, 0x550c7dc3, 0x72be5d74, 0x80deb1fe, 0x9bdc06a7, 0xc19bf174,
   0xe49b69c1, 0xefbe4786, 0x0fc19dc6, 0x240ca1cc, 0x2de92c6f, 0x4a7484aa, 0x5cb0a9dc, 0x76f988da,
   0x983e5152, 0xa831c66d, 0xb00327c8, 0xbf597fc7, 0xc6e00bf3, 0xd5a79147, 0x06ca6351, 0x14292967,
   0x27b70a85, 0x2e1b2138, 0x4d2c6dfc, 0x53380d13, 0x650a7354, 0x766a0abb, 0x81c2c92e, 0x92722c85,
   0xa2bfe8a1, 0xa81a664b, 0xc24b8b70, 0xc76c51a3, 0xd192e819, 0xd6990624, 0xf40e3585, 0x106aa070,
   0x19a4c116, 0x1e376c08, 0x2748774c, 0x34b0bcb5, 0x391c0cb3, 0x4ed8aa4a, 0x5b9cca4f, 0x682e6ff3,
   0x748f82ee, 0x78a5636f, 0x84c87814, 0x8cc70208, 0x90befffa, 0xa4506ceb, 0xbef9a3f7, 0xc67178f2]

/-- Reduction to a 32-bit word. -/
def w32 (x : Nat) : Nat := x % 2 ^ 32

/-- Rotation of a 32-bit word to the right by `n` bits. -/
def rotr (x n : Nat) : Nat := w32 ((x >>> n) ||| (x <<< (32 - n)))

/-- The four sigma functions of FIPS 180-4, section 4.1.2. -/
def bigSigma0 (x : Nat) : Nat := rotr x 2 ^^^ rotr x 13 ^^^ rotr x 22
def bigSigma1 (x : Nat) : Nat := rotr x 6 ^^^ rotr x 11 ^^^ rotr x 25
def smallSigma0 (x : Nat) : Nat := rotr x 7 ^^^ rotr x 18 ^^^ (x >>> 3)
def smallSigma1 (x : Nat) : Nat := rotr x 17 ^^^ rotr x 19 ^^^ (x >>> 10)
/-- The functions Ch and Maj of FIPS 180-4, on 32-bit words. -/
def choose (x y z : Nat) : Nat := (x &&& y) ^^^ ((x ^^^ (2 ^ 32 - 1)) &&& z)
def majority (x y z : Nat) : Nat := (x &&& y) ^^^ (x &&& z) ^^^ (y &&& z)

/-- UTF-8 bytes of one code point. -/
def utf8Bytes (c : Nat) : List Nat :=
  if c < 0x80 then [c]
  else if c < 0x800 then [0xC0 + c / 64, 0x80 + c % 64]
  else if c < 0x10000 then [0xE0 + c / 4096, 0x80 + c / 64 % 64, 0x80 + c % 64]
  else [0xF0 + c / 262144, 0x80 + c / 4096 % 64, 0x80 + c / 64 % 64, 0x80 + c % 64]

/-- The UTF-8 bytes of a string. -/
def utf8Encode (s : String) : List Nat := s.data.flatMap fun c => utf8Bytes c.toNat

/-- Big-endian bytes of `x`, `n` of them. -/
def beBytes : Nat → Nat → List Nat
  | 0, _ => []
  | n + 1, x => (x / 256 ^ n) % 256 :: beBytes n x

/-- Message padding: a 0x80 byte, zero bytes up to 56 mod 64, the bit length on 8 bytes. -/
def sha256Pad (msg : List Nat) : List Nat :=
  msg ++ [0x80] ++ List.replicate ((119 - msg.length % 64) % 64) 0 ++ beBytes 8 (8 * msg.length)

/-- The word made of four bytes, most significant first. -/
def beWord : List Nat → Nat
  | [a, b, c, d] => ((a * 256 + b) * 256 + c) * 256 + d
  | _ => 0

/-- Words of a byte list, four bytes each. -/
def toWords : Nat → List Nat → List Nat
  | 0, _ => []
  | n + 1, bs => beWord (bs.take 4) :: toWords n (bs.drop 4)

/-- Message schedule: extends the 16 block words to 64 (newest word last). -/
def schedule : Nat → List Nat → List Nat
  | 0, w => w
  | n + 1, w =>
    let k := w.length
    schedule n (w ++ [w32 (smallSigma1 (w.getD (k - 2) 0) + w.getD (k - 7) 0
      + smallSigma0 (w.getD (k - 15) 0) + w.getD (k - 16) 0)])

/-- The eight working words. -/
structure Hash8 where
  a : Nat
  b : Nat
  c : Nat
  d : Nat
  e : Nat
  f : Nat
  g : Nat
  h : Nat

/-- The initial hash value. -/
def sha256Init : Hash8 :=
  ⟨0x6a09e667, 0xbb67ae85, 0x3c6ef372, 0xa54ff53a, 0x510e527f, 0x9b05688c, 0x1f83d9ab, 0x5be0cd19⟩

/-- One of the 64 rounds, with its constant and its schedule word. -/
def sha256Round (s : Hash8) (kw : Nat × Nat) : Hash8 :=
  let t1 := s.h + bigSigma1 s.e + choose s.e s.f s.g + kw.1 + kw.2
  let t2 := bigSigma0 s.a + majority s.a s.b s.c
  ⟨w32 (t1 + t2), s.a, s.b, s.c, w32 (s.d + t1), s.e, s.f, s.g⟩

/-- The compression of one 64-byte block into the hash value. -/
def sha256Block (h : Hash8) (block : List Nat) : Hash8 :=
  let w := schedule 48 (toWords 16 block)
  let s := (sha256K.zip w).foldl sha256Round h
  ⟨w32 (h.a + s.a), w32 (h.b + s.b), w32 (h.c + s.c), w32 (h.d + s.d),
   w32 (h.e + s.e), w32 (h.f + s.f), w32 (h.g + s.g), w32 (h.h + s.h)⟩

/-- The compression of `n` consecutive blocks. -/
def sha256Blocks : Nat → Hash8 → List Nat → Hash8
  | 0, h, _ => h
  | n + 1, h, bs => sha256Blocks n (sha256Block h (bs.take 64)) (bs.drop 64)

/-- A lower-case hexadecimal digit. -/
def hexDigit (n : Nat) : Char := "0123456789abcdef".data.getD n '0'

/-- Eight hexadecimal digits of a 32-bit word. -/
def hexWord (w : Nat) : List Char :=
  [28, 24, 20, 16, 12, 8, 4, 0].map fun s => hexDigit ((w >>> s) % 16)

/-- Line 108: the SHA-256 digest of a string, in hexadecimal. -/
def sha256Hex (s : String) : String :=
  let p := sha256Pad (utf8Encode s)
  let h := sha256Blocks (p.length / 64) sha256Init p
  String.mk (hexWord h.a ++ hexWord h.b ++ hexWord h.c ++ hexWord h.d
    ++ hexWord h.e ++ hexWord h.f ++ hexWord h.g ++ hexWord h.h)

/-! ## One cycle (lines 22-138) -/

/-- Why `makeRequest` rejects. -/
inductive FetchError where
  | parse
  | httpStatus (statusCode : Nat)
  | network
  | timeout
  deriving DecidableEq

/-- What the HTTP exchange of `makeRequest` delivers: a complete response
(`end` event) with its status code and the result of `JSON.parse` on its body
(`none` when the parse throws); an `error` event on the request; a `timeout`
event on the request; or response headers followed by the loss of the
connection before the body ends, which raises events on the response only
(`aborted`, `error`, `close`). -/
inductive HttpOutcome where
  | response (statusCode : Nat) (body : Option RegistryResponse)
  | error
  | timeout
  | aborted (statusCode : Nat)
  deriving DecidableEq

/-- The fate of the promise `makeRequest` returns. -/
inductive Settlement where
  | resolved (jsonData : RegistryResponse)
  | rejected (reason : FetchError)
  | pending
  deriving DecidableEq

/-- Lines 22-54. `resolve` and `reject` are called from the `end` listener of
the response and from the `error` and `timeout` listeners of the request;
the response has no other listener, so a connection lost after the headers
leaves the promise pending. -/
def makeRequest (outcome : HttpOutcome) : Settlement :=
  match outcome with
  | .response statusCode body =>
    if statusCode = 200 then
      match body with
      | some jsonData => .resolved jsonData
      | none => .rejected .parse
    else .rejected (.httpStatus statusCode)
  | .error => .rejected .network
  | .timeout => .rejected .timeout
  | .aborted _ => .pending

/-- What a `writeFileSync` call does: it succeeds, or it throws and leaves the
file with the content `left` (`none`: no file). -/
inductive WriteOutcome where
  | ok
  | failed (left : Option String)
  deriving DecidableEq

/-- The answers of the outside world during one cycle. -/
structure CycleEnv where
  http : HttpOutcome
  manifestWrite : WriteOutcome
  emergencyWrite : WriteOutcome
  deriving DecidableEq

/-- The state that outlives a cycle: the content of `TARGETS_FILE` (`none`: no
file) and the module variable of line 20. -/
structure State where
  file : Option String
  lastTargetsHash : String
  deriving DecidableEq

/-- File system calls, by call site. -/
inductive Event where
  | mkdirSync
  | writeManifest (data : String)
  | writeEmpty
  deriving DecidableEq

/-- What is thrown inside the `try` block. -/
inductive Thrown where
  | fetch (e : FetchError)
  | gateway (message : String)
  | fileWrite
  deriving DecidableEq

/-- Result of the `try` block: what it threw (`none` when it ran to its end, or
when it stays suspended at the `await` of line 60), the state it left, the
file system calls it made. -/
structure Attempt where
  thrown : Option Thrown
  state : State
  events : List Event
  deriving DecidableEq

/-- Lines 57-126: the `try` block. -/
def tryBlock (env : CycleEnv) (st : State) : Attempt :=
  match makeRequest env.http with
  | .pending => { thrown := none, state := st, events := [] }
  | .rejected e => { thrown := some (.fetch e), state := st, events := [] }
  | .resolved response =>
    if !response.success then
      { thrown := some (.gateway (orElse response.message "Gateway returned error"))
        state := st, events := [] }
    else
      let targets := (collectTargets response).targets
      let targetsJson := stringifyTargets targets
      let currentHash := sha256Hex targetsJson
      if currentHash ≠ st.lastTargetsHash then
        match env.manifestWrite with
        | .ok =>
          { thrown := none
            state := { file := some targetsJson, lastTargetsHash := currentHash }
            events := [.mkdirSync, .writeManifest targetsJson] }
        | .failed left =>
          { thrown := some .fileWrite
            state := { st with file := left }
            events := [.mkdirSync, .writeManifest targetsJson] }
      else { thrown := none, state := st, events := [.mkdirSync] }

/-- Lines 127-137: the `catch` block. -/
def catchBlock (env : CycleEnv) (a : Attempt) : State × List Event :=
  match env.emergencyWrite with
  | .ok => ({ a.state with file := some "[]" }, a.events ++ [.writeEmpty])
  | .failed left => ({ a.state with file := left }, a.events ++ [.writeEmpty])

/-- Lines 56-138: one cycle, from a state to the next state and the file
system calls made. -/
def discoverServers (env : CycleEnv) (st : State) : State × List Event :=
  let a := tryBlock env st
  match a.thrown with
  | none => (a.state, a.events)
  | some _ => catchBlock env a

/-- Line 20: the state of a fresh process, whatever the file holds. -/
def initialState (file : Option String) : State :=
  { file := file, lastTargetsHash := "" }

/-- Lines 141-151: the cycles of `main`, one environment each. -/
def runCycles : List CycleEnv → State → State
  | [], st => st
  | env :: rest, st => runCycles rest (discoverServers env st).1

/-! ## Reference definitions and sample inputs -/

/-- The eligible entries of a `servers` sequence, in the words of the
specification: the pairs of a key and a record with `status` equal to `ACTIVE`
and a `config`, in the order of the sequence, each with its `config`. -/
def eligibleOf (servers : List (String × ServerRecord)) : List (String × ServerConfig) :=
  servers.filterMap fun entry =>
    if entry.2.status = "ACTIVE" then entry.2.config.map fun config => (entry.1, config)
    else none

/-- The eligible entries of a response; none when `servers` is absent. -/
def eligibleEntries (response : RegistryResponse) : List (String × ServerConfig) :=
  match response.servers with
  | some servers => eligibleOf servers
  | none => []

/-- The response of the end-to-end example: one active server `s1` on
`127.0.0.1:8080` named `api`. -/
def endToEndResponse : RegistryResponse :=
  { success := true
    message := none
    servers := some
      [("s1", { status := "ACTIVE"
                config := some { host := "127.0.0.1", port := 8080, name := some "api" } })] }

/-- The text `JSON.stringify` gives for the manifest of the end-to-end example. -/
def endToEndJson : String :=
  "[\n  \x7b\n    \"targets\": [\n      \"host.docker.internal:8080\"\n    ],\n"
    ++ "    \"labels\": \x7b\n      \"job\": \"rest-servers\",\n"
    ++ "      \"server_id\": \"s1\",\n      \"server_name\": \"api\",\n"
    ++ "      \"instance\": \"127.0.0.1:8080\"\n    \x7d\n  \x7d\n]"

/-- A response with one active server on `localhost:9100` without a name, one
inactive server and one active server without `config`. -/
def mixedResponse : RegistryResponse :=
  { success := true
    message := none
    servers := some
      [("down", { status := "INACTIVE"
                  config := some { host := "10.0.0.7", port := 9000, name := some "old" } }),
       ("node", { status := "ACTIVE"
                  config := some { host := "localhost", port := 9100, name := none } }),
       ("bare", { status := "ACTIVE", config := none })] }

/-- The active, configured server of `mixedResponse` alone. -/
def nodeOnlyResponse : RegistryResponse :=
  { success := true
    message := none
    servers := some
      [("node", { status := "ACTIVE"
                  config := some { host := "localhost", port := 9100, name := none } })] }

/-- A response whose only server is active and has the empty string as
`config.name`. -/
def emptyNameResponse : RegistryResponse :=
  { success := true
    message := none
    servers := some
      [("s1", { status := "ACTIVE"
                config := some { host := "10.0.0.5", port := 9100, name := some "" } })] }

/-- A `success: true` response with `servers: {}`. -/
def emptyServersResponse : RegistryResponse :=
  { success := true, message := none, servers := some [] }

/-- A `success: false` response. -/
def refusedResponse : RegistryResponse :=
  { success := false, message := some "registry unavailable", servers := none }

/-- A cycle that receives `response` with status 200 and whose writes succeed. -/
def okCycle (response : RegistryResponse) : CycleEnv :=
  { http := .response 200 (some response), manifestWrite := .ok, emergencyWrite := .ok }

/-- A cycle whose fetch answers HTTP 500 and whose writes succeed. -/
def outageCycle : CycleEnv :=
  { http := .response 500 none, manifestWrite := .ok, emergencyWrite := .ok }

/-- A cycle whose fetch receives the headers of a 200 response and then loses
the connection before the body ends; its writes would succeed. -/
def abortedCycle : CycleEnv :=
  { http := .aborted 200, manifestWrite := .ok, emergencyWrite := .ok }

/-- A cycle that receives `response` with status 200 while the file cannot be
written: every write throws and leaves the file as it was, `before`. -/
def writeFailureCycle (response : RegistryResponse) (before : Option String) : CycleEnv :=
  { http := .response 200 (some response)
    manifestWrite := .failed before
    emergencyWrite := .failed before }

/-- The serialized manifest of a response. -/
def manifestJson (response : RegistryResponse) : String :=
  stringifyTargets (collectTargets response).targets

/-! ## Lemmas -/

theorem hexWord_length (w : Nat) : (hexWord w).length = 8 := by
  simp [hexWord]

theorem sha256Hex_length (s : String) : (sha256Hex s).length = 64 := by
  simp [sha256Hex, String.length, hexWord_length]

theorem sha256Hex_ne_empty (s : String) : sha256Hex s ≠ "" := by
  intro h
  have h64 := sha256Hex_length s
  rw [h] at h64
  simp at h64

/-- The digest of the empty message (FIPS 180-4 test vector). -/
theorem sha256Hex_empty :
    sha256Hex "" = "e3b0c44298fc1c149afbf4c8996fb92427ae41e4649b934ca495991b7852b855" := by
  rfl

/-- The digest of `abc` (FIPS 180-4 test vector). -/
theorem sha256Hex_abc :
    sha256Hex "abc" = "ba7816bf8f01cfea414140de5dae2223b00361a396177a9cb410ff61f20015ad" := by
  rfl

theorem foldl_processEntry (servers : List (String × ServerRecord)) (acc : Collected) :
    servers.foldl processEntry acc =
      { targets := acc.targets ++ (eligibleOf servers).map fun e => makeTarget e.1 e.2
        activeCount := acc.activeCount + (eligibleOf servers).length } := by
  induction servers generalizing acc with
  | nil => simp [eligibleOf]
  | cons entry rest ih =>
    rw [List.foldl_cons, ih]
    by_cases hstatus : entry.2.status = "ACTIVE"
    · cases hconfig : entry.2.config with
      | none => simp [processEntry, eligibleOf, hstatus, hconfig]
      | some config =>
        simp [processEntry, eligibleOf, hstatus, hconfig, Nat.add_assoc, Nat.add_comm 1]
    · simp [processEntry, eligibleOf, hstatus]

theorem collectTargets_eq (response : RegistryResponse) :
    collectTargets response =
      { targets := (eligibleEntries response).map fun e => makeTarget e.1 e.2
        activeCount := (eligibleEntries response).length } := by
  unfold collectTargets eligibleEntries
  cases response.servers with
  | none => simp
  | some servers => simp [foldl_processEntry]

theorem mem_eligibleOf {servers : List (String × ServerRecord)} {serverId : String}
    {config : ServerConfig} :
    (serverId, config) ∈ eligibleOf servers ↔
      ∃ serverData, (serverId, serverData) ∈ servers ∧ serverData.status = "ACTIVE"
        ∧ serverData.config = some config := by
  unfold eligibleOf
  rw [List.mem_filterMap]
  constructor
  · rintro ⟨entry, hmem, h⟩
    by_cases hstatus : entry.2.status = "ACTIVE"
    · rw [if_pos hstatus] at h
      cases hconfig : entry.2.config with
      | none => simp [hconfig] at h
      | some c =>
        simp [hconfig] at h
        obtain ⟨h1, h2⟩ := h
        subst h1 h2
        exact ⟨entry.2, hmem, hstatus, hconfig⟩
    · rw [if_neg hstatus] at h
      cases h
  · rintro ⟨serverData, hmem, hstatus, hconfig⟩
    exact ⟨(serverId, serverData), hmem, by simp [hstatus, hconfig]⟩

theorem tryBlock_pending {env : CycleEnv} (st : State)
    (h : makeRequest env.http = .pending) :
    tryBlock env st = { thrown := none, state := st, events := [] } := by
  simp [tryBlock, h]

theorem tryBlock_fetch_error {env : CycleEnv} {e : FetchError} (st : State)
    (h : makeRequest env.http = .rejected e) :
    tryBlock env st = { thrown := some (.fetch e), state := st, events := [] } := by
  simp [tryBlock, h]

theorem tryBlock_refused {env : CycleEnv} {response : RegistryResponse} (st : State)
    (h : makeRequest env.http = .resolved response) (hs : response.success = false) :
    tryBlock env st =
      { thrown := some (.gateway (orElse response.message "Gateway returned error"))
        state := st, events := [] } := by
  simp [tryBlock, h, hs]

theorem tryBlock_unchanged {env : CycleEnv} {response : RegistryResponse} {st : State}
    (h : makeRequest env.http = .resolved response) (hs : response.success = true)
    (hh : sha256Hex (manifestJson response) = st.lastTargetsHash) :
    tryBlock env st = { thrown := none, state := st, events := [.mkdirSync] } := by
  simp [tryBlock, h, hs, manifestJson] at *
  simp [hh]

theorem tryBlock_written {env : CycleEnv} {response : RegistryResponse} {st : State}
    (h : makeRequest env.http = .resolved response) (hs : response.success = true)
    (hh : sha256Hex (manifestJson response) ≠ st.lastTargetsHash)
    (hw : env.manifestWrite = .ok) :
    tryBlock env st =
      { thrown := none
        state := { file := some (manifestJson response)
                   lastTargetsHash := sha256Hex (manifestJson response) }
        events := [.mkdirSync, .writeManifest (manifestJson response)] } := by
  simp [tryBlock, h, hs, manifestJson] at *
  simp [hh, hw]

theorem tryBlock_write_failed {env : CycleEnv} {response : RegistryResponse} {st : State}
    {left : Option String}
    (h : makeRequest env.http = .resolved response) (hs : response.success = true)
    (hh : sha256Hex (manifestJson response) ≠ st.lastTargetsHash)
    (hw : env.manifestWrite = .failed left) :
    tryBlock env st =
      { thrown := some .fileWrite
        state := { st with file := left }
        events := [.mkdirSync, .writeManifest (manifestJson response)] } := by
  simp [tryBlock, h, hs, manifestJson] at *
  simp [hh, hw]

/-- State and calls of the `catch` block. -/
theorem catchBlock_state (env : CycleEnv) (a : Attempt) :
    (catchBlock env a).1.lastTargetsHash = a.state.lastTargetsHash
      ∧ (catchBlock env a).2 = a.events ++ [.writeEmpty]
      ∧ (env.emergencyWrite = .ok → (catchBlock env a).1.file = some "[]") := by
  unfold catchBlock
  cases env.emergencyWrite <;> simp

theorem discoverServers_pending {env : CycleEnv} (st : State)
    (h : makeRequest env.http = .pending) :
    discoverServers env st = (st, []) := by
  simp [discoverServers, tryBlock_pending st h]

theorem discoverServers_fetch_error {env : CycleEnv} {e : FetchError} (st : State)
    (h : makeRequest env.http = .rejected e) :
    discoverServers env st = catchBlock env { thrown := some (.fetch e), state := st, events := [] } := by
  simp [discoverServers, tryBlock_fetch_error st h]

theorem discoverServers_refused {env : CycleEnv} {response : RegistryResponse} (st : State)
    (h : makeRequest env.http = .resolved response) (hs : response.success = false) :
    discoverServers env st =
      catchBlock env
        { thrown := some (.gateway (orElse response.message "Gateway returned error"))
          state := st, events := [] } := by
  simp [discoverServers, tryBlock_refused st h hs]

theorem discoverServers_unchanged {env : CycleEnv} {response : RegistryResponse} {st : State}
    (h : makeRequest env.http = .resolved response) (hs : response.success = true)
    (hh : sha256Hex (manifestJson response) = st.lastTargetsHash) :
    discoverServers env st = (st, [.mkdirSync]) := by
  simp [discoverServers, tryBlock_unchanged h hs hh]

theorem discoverServers_written {env : CycleEnv} {response : RegistryResponse} {st : State}
    (h : makeRequest env.http = .resolved response) (hs : response.success = true)
    (hh : sha256Hex (manifestJson response) ≠ st.lastTargetsHash)
    (hw : env.manifestWrite = .ok) :
    discoverServers env st =
      ({ file := some (manifestJson response)
         lastTargetsHash := sha256Hex (manifestJson response) },
       [.mkdirSync, .writeManifest (manifestJson response)]) := by
  simp [discoverServers, tryBlock_written h hs hh hw]

theorem discoverServers_write_failed {env : CycleEnv} {response : RegistryResponse} {st : State}
    {left : Option String}
    (h : makeRequest env.http = .resolved response) (hs : response.success = true)
    (hh : sha256Hex (manifestJson response) ≠ st.lastTargetsHash)
    (hw : env.manifestWrite = .failed left) :
    discoverServers env st =
      catchBlock env
        { thrown := some .fileWrite
          state := { st with file := left }
          events := [.mkdirSync, .writeManifest (manifestJson response)] } := by
  simp [discoverServers, tryBlock_write_failed h hs hh hw]

theorem manifestJson_endToEnd : manifestJson endToEndResponse = endToEndJson := by
  rfl

theorem makeRequest_okCycle (response : RegistryResponse) :
    makeRequest (okCycle response).http = .resolved response := rfl

theorem makeRequest_writeFailureCycle (response : RegistryResponse) (before : Option String) :
    makeRequest (writeFailureCycle response before).http = .resolved response := rfl

theorem makeRequest_outageCycle : makeRequest outageCycle.http = .rejected (.httpStatus 500) := rfl

/-- A cycle that does not get past line 64 keeps the fingerprint. -/
theorem discoverServers_hash_of_not_reached {env : CycleEnv} (st : State)
    (h : ∀ response, makeRequest env.http = .resolved response → response.success = false) :
    (discoverServers env st).1.lastTargetsHash = st.lastTargetsHash := by
  cases hreq : makeRequest env.http with
  | pending => rw [discoverServers_pending st hreq]
  | rejected e =>
    rw [discoverServers_fetch_error st hreq]
    exact (catchBlock_state env _).1
  | resolved response =>
    rw [discoverServers_refused st hreq (h response hreq)]
    exact (catchBlock_state env _).1

theorem runCycles_hash_of_not_reached (envs : List CycleEnv) (st : State)
    (h : ∀ env ∈ envs, ∀ response, makeRequest env.http = .resolved response → response.success = false) :
    (runCycles envs st).lastTargetsHash = st.lastTargetsHash := by
  induction envs generalizing st with
  | nil => rfl
  | cons env rest ih =>
    rw [runCycles, ih _ (fun e he => h e (List.mem_cons_of_mem _ he))]
    exact discoverServers_hash_of_not_reached st (h env (List.mem_cons_self _ _))

/-- When the promise of `makeRequest` is rejected (status other than 200, body
that does not parse, `error` or `timeout` event of the request) or the
response has `success` false, and the write of the catch block succeeds, the
file holds exactly `[]` after the cycle and that write is the only call. -/
theorem settled_failure_writes_empty (env : CycleEnv) (st : State)
    (hfail :
      (∃ statusCode body, statusCode ≠ 200 ∧ env.http = .response statusCode body)
      ∨ env.http = .response 200 none
      ∨ env.http = .error
      ∨ env.http = .timeout
      ∨ (∃ response, env.http = .response 200 (some response) ∧ response.success = false))
    (hwrite : env.emergencyWrite = .ok) :
    (discoverServers env st).1.file = some "[]"
      ∧ (discoverServers env st).2 = [Event.writeEmpty] := by
  rcases hfail with ⟨statusCode, body, hne, h⟩ | h | h | h | ⟨response, h, hs⟩
  · have hreq : makeRequest env.http = .rejected (.httpStatus statusCode) := by
      simp [h, makeRequest, hne]
    rw [discoverServers_fetch_error st hreq]
    exact ⟨(catchBlock_state env _).2.2 hwrite, (catchBlock_state env _).2.1⟩
  · have hreq : makeRequest env.http = .rejected .parse := by simp [h, makeRequest]
    rw [discoverServers_fetch_error st hreq]
    exact ⟨(catchBlock_state env _).2.2 hwrite, (catchBlock_state env _).2.1⟩
  · have hreq : makeRequest env.http = .rejected .network := by simp [h, makeRequest]
    rw [discoverServers_fetch_error st hreq]
    exact ⟨(catchBlock_state env _).2.2 hwrite, (catchBlock_state env _).2.1⟩
  · have hreq : makeRequest env.http = .rejected .timeout := by simp [h, makeRequest]
    rw [discoverServers_fetch_error st hreq]
    exact ⟨(catchBlock_state env _).2.2 hwrite, (catchBlock_state env _).2.1⟩
  · have hreq : makeRequest env.http = .resolved response := by simp [h, makeRequest]
    rw [discoverServers_refused st hreq hs]
    exact ⟨(catchBlock_state env _).2.2 hwrite, (catchBlock_state env _).2.1⟩

/-! ## Transform -/

/-- Claim C1: for every record of `servers` with status `ACTIVE` and a `config`
with host `h` and port `p`, the manifest holds a target for the record's key
whose `targets` is the single address `host.docker.internal:p` when `h` is
`localhost` or `127.0.0.1` and `h:p` otherwise, and whose `instance` label is
`h:p` with the host as received. -/
theorem address_normalized_instance_original (response : RegistryResponse)
    (servers : List (String × ServerRecord)) (serverId : String) (serverData : ServerRecord)
    (config : ServerConfig)
    (hservers : response.servers = some servers)
    (hentry : (serverId, serverData) ∈ servers)
    (hstatus : serverData.status = "ACTIVE")
    (hconfig : serverData.config = some config) :
    ∃ t ∈ (collectTargets response).targets,
      t.label "server_id" = some serverId
      ∧ t.targets =
          [(if config.host = "localhost" ∨ config.host = "127.0.0.1"
              then "host.docker.internal" else config.host)
            ++ ":" ++ numberToString config.port]
      ∧ t.label "instance" = some (config.host ++ ":" ++ numberToString config.port) := by
  refine ⟨makeTarget serverId config, ?_, ?_, ?_, ?_⟩
  · rw [collectTargets_eq, List.mem_map]
    refine ⟨(serverId, config), ?_, rfl⟩
    simp only [eligibleEntries, hservers]
    exact mem_eligibleOf.mpr ⟨serverData, hentry, hstatus, hconfig⟩
  · simp [makeTarget, Target.label, List.lookup]
  · simp [makeTarget, targetHost, dockerHost]
  · simp [makeTarget, Target.label, List.lookup]

/-- The record `node` of `mixedResponse` (host `localhost`, port 9100) gives the
address `host.docker.internal:9100` and the instance `localhost:9100`. -/
theorem address_normalized_instance_original_witness :
    ∃ t ∈ (collectTargets mixedResponse).targets,
      t.label "server_id" = some "node"
      ∧ t.targets = ["host.docker.internal:9100"]
      ∧ t.label "instance" = some "localhost:9100" :=
  address_normalized_instance_original mixedResponse _ "node"
    { status := "ACTIVE", config := some { host := "localhost", port := 9100, name := none } }
    { host := "localhost", port := 9100, name := none }
    rfl (by decide) rfl rfl

/-- Claim C2: in a cycle that received a response with `success` true, the
manifest is the sequence of targets of the eligible entries of `servers`
(status `ACTIVE`, `config` present), one per entry and in the order of
`servers`; its `server_id` labels are the eligible keys in that order and
`activeCount` is their number; removing a record that is not eligible from
`servers` leaves the manifest unchanged; and nothing is thrown in the cycle
except by a failing write of the manifest. -/
theorem manifest_lists_eligible_in_order (env : CycleEnv) (st : State)
    (response : RegistryResponse)
    (hfetch : makeRequest env.http = .resolved response)
    (hsuccess : response.success = true) :
    (collectTargets response).targets
        = (eligibleEntries response).map (fun e => makeTarget e.1 e.2)
      ∧ (collectTargets response).targets.map (fun t => t.label "server_id")
        = (eligibleEntries response).map (fun e => some e.1)
      ∧ (collectTargets response).activeCount = (eligibleEntries response).length
      ∧ (∀ before after serverId serverData,
          response.servers = some (before ++ (serverId, serverData) :: after) →
          (serverData.status ≠ "ACTIVE" ∨ serverData.config = none) →
          (collectTargets response).targets
            = (collectTargets { response with servers := some (before ++ after) }).targets)
      ∧ ((tryBlock env st).thrown = none ∨ (tryBlock env st).thrown = some .fileWrite) := by
  refine ⟨?_, ?_, ?_, ?_, ?_⟩
  · rw [collectTargets_eq]
  · rw [collectTargets_eq, List.map_map]
    apply List.map_congr_left
    intro e _
    simp [makeTarget, Target.label, List.lookup]
  · rw [collectTargets_eq]
  · intro before after serverId serverData hservers hskip
    rw [collectTargets_eq, collectTargets_eq]
    simp only [eligibleEntries, hservers, eligibleOf, List.filterMap_append, List.filterMap_cons]
    rcases hskip with h | h
    · simp [h]
    · simp [h]
  · by_cases hh : sha256Hex (manifestJson response) = st.lastTargetsHash
    · left
      rw [tryBlock_unchanged hfetch hsuccess hh]
    · cases hw : env.manifestWrite with
      | ok => left; rw [tryBlock_written hfetch hsuccess hh hw]
      | failed left => right; rw [tryBlock_write_failed hfetch hsuccess hh hw]

/-- On `mixedResponse` the manifest is the single target of `node`: the
inactive record and the record without `config` give none. -/
theorem manifest_lists_eligible_in_order_witness :
    makeRequest (okCycle mixedResponse).http = .resolved mixedResponse
      ∧ mixedResponse.success = true
      ∧ (collectTargets mixedResponse).targets
        = [makeTarget "node" { host := "localhost", port := 9100, name := none }] :=
  ⟨rfl, rfl,
    (manifest_lists_eligible_in_order (okCycle mixedResponse) (initialState none)
      mixedResponse rfl rfl).1.trans (by decide)⟩

/-- Claim C3, as amended: for every record of `servers` with status `ACTIVE` and
a `config`, the manifest holds a target for the record's key whose
`server_name` label is `config.name` when that is present and not the empty
string, and the key when `config.name` is absent or the empty string. -/
theorem server_name_falls_back_to_key (response : RegistryResponse)
    (servers : List (String × ServerRecord)) (serverId : String) (serverData : ServerRecord)
    (config : ServerConfig)
    (hservers : response.servers = some servers)
    (hentry : (serverId, serverData) ∈ servers)
    (hstatus : serverData.status = "ACTIVE")
    (hconfig : serverData.config = some config) :
    ∃ t ∈ (collectTargets response).targets,
      t.label "server_id" = some serverId
      ∧ (∀ name, config.name = some name → name ≠ "" → t.label "server_name" = some name)
      ∧ (config.name = none ∨ config.name = some "" → t.label "server_name" = some serverId) := by
  refine ⟨makeTarget serverId config, ?_, ?_, ?_, ?_⟩
  · rw [collectTargets_eq, List.mem_map]
    refine ⟨(serverId, config), ?_, rfl⟩
    simp only [eligibleEntries, hservers]
    exact mem_eligibleOf.mpr ⟨serverData, hentry, hstatus, hconfig⟩
  · simp [makeTarget, Target.label, List.lookup]
  · intro name hname hne
    simp [makeTarget, Target.label, List.lookup, orElse, hname, hne]
  · intro h
    rcases h with h | h <;> simp [makeTarget, Target.label, List.lookup, orElse, h]

/-- The end-to-end record is named `api`; the record `node` of `mixedResponse`
has no name and is labelled with its key. -/
theorem server_name_falls_back_to_key_witness :
    (∃ t ∈ (collectTargets endToEndResponse).targets,
        t.label "server_id" = some "s1" ∧ t.label "server_name" = some "api")
      ∧ (∃ t ∈ (collectTargets mixedResponse).targets,
        t.label "server_id" = some "node" ∧ t.label "server_name" = some "node") := by
  constructor
  · obtain ⟨t, ht, hid, hname, _⟩ :=
      server_name_falls_back_to_key endToEndResponse _ "s1"
        { status := "ACTIVE"
          config := some { host := "127.0.0.1", port := 8080, name := some "api" } }
        { host := "127.0.0.1", port := 8080, name := some "api" }
        rfl (by decide) rfl rfl
    exact ⟨t, ht, hid, hname "api" rfl (by decide)⟩
  · obtain ⟨t, ht, hid, _, hkey⟩ :=
      server_name_falls_back_to_key mixedResponse _ "node"
        { status := "ACTIVE", config := some { host := "localhost", port := 9100, name := none } }
        { host := "localhost", port := 9100, name := none }
        rfl (by decide) rfl rfl
    exact ⟨t, ht, hid, hkey (Or.inl rfl)⟩

/-- Claim C3 fails when `config.name` is the empty string: the only record of
`emptyNameResponse` is eligible and carries the name `""`, and the only target
of the manifest has `server_name` equal to the key `s1`, not to that name. -/
theorem server_name_empty_string_counterexample :
    emptyNameResponse.servers
        = some [("s1", { status := "ACTIVE"
                         config := some { host := "10.0.0.5", port := 9100, name := some "" } })]
      ∧ (collectTargets emptyNameResponse).targets.map (fun t => t.label "server_name")
        = [some "s1"]
      ∧ (some "s1" : Option String) ≠ some "" := by
  decide

/-- Claim C6: for the response with the single server `s1` (status `ACTIVE`,
host `127.0.0.1`, port 8080, name `api`) the manifest is the one target with
address `host.docker.internal:8080` and labels `job`, `server_id`,
`server_name`, `instance` equal to `rest-servers`, `s1`, `api`,
`127.0.0.1:8080`, and a fresh process that receives it writes its two-space
indented serialization to the file; and for every response, every target of the manifest has
one address, exactly those four labels in that order, the job `rest-servers`,
and as `server_id` the key of an eligible record of `servers`. -/
theorem end_to_end_manifest_and_target_shape :
    (collectTargets endToEndResponse).targets
        = [{ targets := ["host.docker.internal:8080"]
             labels := [("job", "rest-servers"), ("server_id", "s1"),
                        ("server_name", "api"), ("instance", "127.0.0.1:8080")] }]
      ∧ (discoverServers (okCycle endToEndResponse) (initialState none)).1.file
        = some endToEndJson
      ∧ (∀ (response : RegistryResponse), ∀ t ∈ (collectTargets response).targets,
          t.targets.length = 1
          ∧ t.labels.map Prod.fst = ["job", "server_id", "server_name", "instance"]
          ∧ t.label "job" = some "rest-servers"
          ∧ ∃ servers serverId serverData,
              response.servers = some servers ∧ (serverId, serverData) ∈ servers
              ∧ serverData.status = "ACTIVE" ∧ serverData.config.isSome
              ∧ t.label "server_id" = some serverId) := by
  refine ⟨by decide, ?_, ?_⟩
  · rw [discoverServers_written (makeRequest_okCycle endToEndResponse) rfl
      (sha256Hex_ne_empty _) rfl]
    exact congrArg some manifestJson_endToEnd
  intro response t ht
  rw [collectTargets_eq, List.mem_map] at ht
  obtain ⟨⟨serverId, config⟩, hmem, rfl⟩ := ht
  refine ⟨by simp [makeTarget], by simp [makeTarget],
    by simp [makeTarget, Target.label, List.lookup, jobName], ?_⟩
  unfold eligibleEntries at hmem
  cases hservers : response.servers with
  | none => simp [hservers] at hmem
  | some servers =>
    simp only [hservers] at hmem
    obtain ⟨serverData, hentry, hstatus, hconfig⟩ := mem_eligibleOf.mp hmem
    exact ⟨servers, serverId, serverData, rfl, hentry, hstatus, by simp [hconfig],
      by simp [makeTarget, Target.label, List.lookup]⟩

/-- The target shape on the manifest of `mixedResponse`. -/
theorem end_to_end_manifest_and_target_shape_witness :
    makeTarget "node" { host := "localhost", port := 9100, name := none }
        ∈ (collectTargets mixedResponse).targets
      ∧ (makeTarget "node" { host := "localhost", port := 9100, name := none }).labels.map Prod.fst
        = ["job", "server_id", "server_name", "instance"] :=
  ⟨by decide,
    (end_to_end_manifest_and_target_shape.2.2 mixedResponse
      (makeTarget "node" { host := "localhost", port := 9100, name := none })
      (by decide)).2.1⟩

/-! ## Cycles -/

/-- Claim C4 at a connection lost after the response headers: a fresh process
receives the end-to-end response and writes its manifest; in the next cycle the
gateway sends the headers of a 200 response and the connection is reset before
the body ends. The promise of `makeRequest` stays pending, the cycle makes no
file system call although its writes would succeed, and the file still holds
the one-target manifest, not `[]`. -/
theorem stale_file_after_aborted_response :
    makeRequest abortedCycle.http = .pending
      ∧ abortedCycle.emergencyWrite = .ok
      ∧ discoverServers abortedCycle
          (runCycles [okCycle endToEndResponse] (initialState none))
        = ({ file := some endToEndJson, lastTargetsHash := sha256Hex endToEndJson }, [])
      ∧ (runCycles [okCycle endToEndResponse, abortedCycle] (initialState none)).file
        = some endToEndJson
      ∧ endToEndJson ≠ "[]" := by
  have h1 : discoverServers (okCycle endToEndResponse) (initialState none)
      = ({ file := some endToEndJson, lastTargetsHash := sha256Hex endToEndJson },
         [Event.mkdirSync, Event.writeManifest endToEndJson]) := by
    rw [discoverServers_written (makeRequest_okCycle endToEndResponse) rfl
      (sha256Hex_ne_empty _) rfl, manifestJson_endToEnd]
  have h2 : ∀ st, discoverServers abortedCycle st = (st, []) := fun st =>
    discoverServers_pending st rfl
  refine ⟨rfl, rfl, ?_, ?_, by decide⟩
  · simp only [runCycles, h1, h2]
  · simp only [runCycles, h1, h2]

/-- Claim C5: of two consecutive cycles that both receive a response with
`success` true and with the same sequence of eligible entries, the first
ending without anything thrown, the second makes no write call (its only file
system call is the directory creation) and leaves the fingerprint, and the
whole state, as the first left them. -/
theorem unchanged_manifest_skips_write (env1 env2 : CycleEnv) (st : State)
    (response1 response2 : RegistryResponse)
    (hfetch1 : makeRequest env1.http = .resolved response1)
    (hsuccess1 : response1.success = true)
    (hfetch2 : makeRequest env2.http = .resolved response2)
    (hsuccess2 : response2.success = true)
    (hsame : eligibleEntries response1 = eligibleEntries response2)
    (hfirst : (tryBlock env1 st).thrown = none) :
    (discoverServers env2 (discoverServers env1 st).1).2 = [Event.mkdirSync]
      ∧ (discoverServers env2 (discoverServers env1 st).1).1.lastTargetsHash
          = (discoverServers env1 st).1.lastTargetsHash
      ∧ (discoverServers env2 (discoverServers env1 st).1).1 = (discoverServers env1 st).1 := by
  have hjson : manifestJson response2 = manifestJson response1 := by
    simp [manifestJson, collectTargets_eq, hsame]
  have hhash : sha256Hex (manifestJson response2)
      = (discoverServers env1 st).1.lastTargetsHash := by
    rw [hjson]
    by_cases hh : sha256Hex (manifestJson response1) = st.lastTargetsHash
    · rw [discoverServers_unchanged hfetch1 hsuccess1 hh]
      exact hh
    · cases hw : env1.manifestWrite with
      | ok => rw [discoverServers_written hfetch1 hsuccess1 hh hw]
      | failed left =>
        rw [tryBlock_write_failed hfetch1 hsuccess1 hh hw] at hfirst
        simp at hfirst
  rw [discoverServers_unchanged hfetch2 hsuccess2 hhash]
  exact ⟨rfl, rfl, rfl⟩

/-- Two cycles from a fresh process: the second response differs from the first
by records that are not eligible only. -/
theorem unchanged_manifest_skips_write_witness :
    (discoverServers (okCycle nodeOnlyResponse)
        (discoverServers (okCycle mixedResponse) (initialState none)).1).2
      = [Event.mkdirSync] :=
  (unchanged_manifest_skips_write (okCycle mixedResponse) (okCycle nodeOnlyResponse)
    (initialState none) mixedResponse nodeOnlyResponse rfl rfl rfl rfl (by decide)
    (by
      rw [tryBlock_written (makeRequest_okCycle mixedResponse) rfl
        (sha256Hex_ne_empty _) rfl])).1

/-- Claim C7, as amended: for a response with `success` true and no eligible
record, when the write of the manifest, if attempted, does not fail, the
manifest is empty and serializes to `[]`, and the cycle either writes `[]` and
sets the fingerprint to the hash of `[]` (the fingerprint differed from it) or
makes no write and keeps the state (the fingerprint was already that hash); the
write of the catch block is not executed. -/
theorem empty_manifest_takes_success_path (env : CycleEnv) (st : State)
    (response : RegistryResponse)
    (hfetch : makeRequest env.http = .resolved response)
    (hsuccess : response.success = true)
    (hnone : eligibleEntries response = [])
    (hwrite : st.lastTargetsHash ≠ sha256Hex "[]" → env.manifestWrite = .ok) :
    (collectTargets response).targets = []
      ∧ stringifyTargets (collectTargets response).targets = "[]"
      ∧ ((st.lastTargetsHash ≠ sha256Hex "[]"
            ∧ discoverServers env st
              = ({ file := some "[]", lastTargetsHash := sha256Hex "[]" },
                 [Event.mkdirSync, Event.writeManifest "[]"]))
          ∨ (st.lastTargetsHash = sha256Hex "[]"
            ∧ discoverServers env st = (st, [Event.mkdirSync])))
      ∧ Event.writeEmpty ∉ (discoverServers env st).2 := by
  have htargets : (collectTargets response).targets = [] := by
    rw [collectTargets_eq, hnone]; rfl
  have hjson : manifestJson response = "[]" := by
    simp only [manifestJson, htargets]; decide
  have hstr : stringifyTargets (collectTargets response).targets = "[]" := hjson
  refine ⟨htargets, hstr, ?_⟩
  by_cases hh : st.lastTargetsHash = sha256Hex "[]"
  · have hcycle : discoverServers env st = (st, [Event.mkdirSync]) :=
      discoverServers_unchanged hfetch hsuccess (by rw [hjson, hh])
    exact ⟨Or.inr ⟨hh, hcycle⟩, by rw [hcycle]; simp⟩
  · have hcycle := discoverServers_written hfetch hsuccess
      (by rw [hjson]; exact fun h => hh h.symm) (hwrite hh)
    rw [hjson] at hcycle
    exact ⟨Or.inl ⟨hh, hcycle⟩, by rw [hcycle]; simp⟩

/-- A fresh process that receives `servers: {}` writes `[]`. -/
theorem empty_manifest_takes_success_path_witness :
    discoverServers (okCycle emptyServersResponse) (initialState none)
      = ({ file := some "[]", lastTargetsHash := sha256Hex "[]" },
         [Event.mkdirSync, Event.writeManifest "[]"]) := by
  have h := (empty_manifest_takes_success_path (okCycle emptyServersResponse)
    (initialState none) emptyServersResponse rfl rfl rfl (fun _ => rfl)).2.2.1
  rcases h with ⟨_, h⟩ | ⟨h, _⟩
  · exact h
  · exact absurd h.symm (sha256Hex_ne_empty _)

/-- Claim C7 fails when the write of the manifest throws: a fresh process
receives `success: true` with `servers: {}`, attempts to write `[]`, the write
fails, and the write of the catch block is executed; the fingerprint stays
empty. -/
theorem empty_manifest_write_failure_counterexample :
    makeRequest (writeFailureCycle emptyServersResponse none).http = .resolved emptyServersResponse
      ∧ emptyServersResponse.success = true
      ∧ emptyServersResponse.servers = some []
      ∧ (discoverServers (writeFailureCycle emptyServersResponse none) (initialState none)).2
        = [Event.mkdirSync, Event.writeManifest "[]", Event.writeEmpty]
      ∧ (discoverServers (writeFailureCycle emptyServersResponse none)
          (initialState none)).1.lastTargetsHash = "" := by
  refine ⟨rfl, rfl, rfl, ?_⟩
  rw [discoverServers_write_failed (makeRequest_writeFailureCycle emptyServersResponse none)
    rfl (sha256Hex_ne_empty _) rfl]
  exact ⟨rfl, rfl⟩

/-- Claim C8: a cycle is in the failure path exactly when the fetch fails, the
response has `success` false, or the attempted write of the manifest fails;
such a cycle leaves `lastTargetsHash` as it was; and a cycle that changes
`lastTargetsHash` received a response with `success` true, wrote its serialized
manifest with success, and left as fingerprint the hash of the text written. -/
theorem fingerprint_changes_only_on_manifest_write (env : CycleEnv) (st : State) :
    ((tryBlock env st).thrown ≠ none ↔
        (∃ e, makeRequest env.http = .rejected e)
        ∨ (∃ response, makeRequest env.http = .resolved response ∧ response.success = false)
        ∨ (∃ response left, makeRequest env.http = .resolved response ∧ response.success = true
            ∧ sha256Hex (manifestJson response) ≠ st.lastTargetsHash
            ∧ env.manifestWrite = .failed left))
      ∧ ((tryBlock env st).thrown ≠ none →
          (discoverServers env st).1.lastTargetsHash = st.lastTargetsHash)
      ∧ ((discoverServers env st).1.lastTargetsHash ≠ st.lastTargetsHash →
          ∃ response, makeRequest env.http = .resolved response ∧ response.success = true
            ∧ env.manifestWrite = .ok
            ∧ discoverServers env st
              = ({ file := some (manifestJson response)
                   lastTargetsHash := sha256Hex (manifestJson response) },
                 [Event.mkdirSync, Event.writeManifest (manifestJson response)])) := by
  cases hreq : makeRequest env.http with
  | pending =>
    rw [tryBlock_pending st hreq, discoverServers_pending st hreq]
    simp
  | rejected e =>
    rw [tryBlock_fetch_error st hreq, discoverServers_fetch_error st hreq]
    refine ⟨by simp, fun _ => (catchBlock_state env _).1, fun h => ?_⟩
    exact absurd (catchBlock_state env _).1 h
  | resolved response =>
    cases hs : response.success with
    | false =>
      rw [tryBlock_refused st hreq hs, discoverServers_refused st hreq hs]
      refine ⟨by simp [hs], fun _ => (catchBlock_state env _).1, fun h => ?_⟩
      exact absurd (catchBlock_state env _).1 h
    | true =>
      by_cases hh : sha256Hex (manifestJson response) = st.lastTargetsHash
      · rw [tryBlock_unchanged hreq hs hh, discoverServers_unchanged hreq hs hh]
        simp [hs, hh]
      · cases hw : env.manifestWrite with
        | ok =>
          rw [tryBlock_written hreq hs hh hw, discoverServers_written hreq hs hh hw]
          simp [hs]
        | failed left =>
          rw [tryBlock_write_failed hreq hs hh hw, discoverServers_write_failed hreq hs hh hw]
          refine ⟨by simp [hs, hh], fun _ => (catchBlock_state env _).1, fun h => ?_⟩
          exact absurd (catchBlock_state env _).1 h

/-- An HTTP 500 answer and a failing manifest write both keep the fingerprint. -/
theorem fingerprint_changes_only_on_manifest_write_witness :
    (discoverServers outageCycle
        { file := some "[1]", lastTargetsHash := sha256Hex "[1]" }).1.lastTargetsHash
        = sha256Hex "[1]"
      ∧ (discoverServers (writeFailureCycle endToEndResponse none)
          (initialState none)).1.lastTargetsHash = "" :=
  ⟨(fingerprint_changes_only_on_manifest_write outageCycle
      { file := some "[1]", lastTargetsHash := sha256Hex "[1]" }).2.1
      (by rw [tryBlock_fetch_error _ makeRequest_outageCycle]; simp),
    (fingerprint_changes_only_on_manifest_write (writeFailureCycle endToEndResponse none)
      (initialState none)).2.1
      (by
        rw [tryBlock_write_failed (makeRequest_writeFailureCycle endToEndResponse none) rfl
          (sha256Hex_ne_empty _) rfl]
        simp)⟩

/-- Claim C9: a SHA-256 hex digest has 64 characters and is never the empty
string; hence, from the initial state and after any number of cycles that did
not reach the comparison (fetch failed or `success` false), a cycle that
receives a response with `success` true calls the write of the manifest with
the serialized manifest, whatever the manifest is. -/
theorem first_comparison_always_writes (file : Option String) (failed : List CycleEnv)
    (env : CycleEnv) (response : RegistryResponse)
    (hfailed : ∀ e ∈ failed, ∀ r, makeRequest e.http = .resolved r → r.success = false)
    (hfetch : makeRequest env.http = .resolved response)
    (hsuccess : response.success = true) :
    (∀ s, (sha256Hex s).length = 64 ∧ sha256Hex s ≠ "")
      ∧ (runCycles failed (initialState file)).lastTargetsHash = ""
      ∧ Event.writeManifest (stringifyTargets (collectTargets response).targets)
          ∈ (discoverServers env (runCycles failed (initialState file))).2 := by
  have hhash : (runCycles failed (initialState file)).lastTargetsHash = "" :=
    runCycles_hash_of_not_reached failed (initialState file) hfailed
  refine ⟨fun s => ⟨sha256Hex_length s, sha256Hex_ne_empty s⟩, hhash, ?_⟩
  have hh : sha256Hex (manifestJson response)
      ≠ (runCycles failed (initialState file)).lastTargetsHash := by
    rw [hhash]; exact sha256Hex_ne_empty _
  cases hw : env.manifestWrite with
  | ok =>
    rw [discoverServers_written hfetch hsuccess hh hw]
    simp [manifestJson]
  | failed left =>
    rw [discoverServers_write_failed hfetch hsuccess hh hw]
    rw [(catchBlock_state env _).2.1]
    simp [manifestJson]

/-- After an HTTP 500 cycle and a `success: false` cycle, a cycle that receives
`servers: {}` writes the empty manifest. -/
theorem first_comparison_always_writes_witness :
    Event.writeManifest "[]"
      ∈ (discoverServers (okCycle emptyServersResponse)
          (runCycles [outageCycle, okCycle refusedResponse] (initialState none))).2 :=
  (first_comparison_always_writes none [outageCycle, okCycle refusedResponse]
    (okCycle emptyServersResponse) emptyServersResponse
    (by
      intro e he r hr
      simp only [List.mem_cons, List.mem_singleton, List.not_mem_nil, or_false] at he
      rcases he with rfl | rfl
      · rw [makeRequest_outageCycle] at hr; cases hr
      · rw [makeRequest_okCycle] at hr; cases hr; rfl)
    rfl rfl).2.2

/-- Claim C10 at an outage between two identical answers: a fresh process
receives the end-to-end response, then an HTTP 500, then the same response
again, all writes succeeding. The third cycle takes the success path and makes
no write; the file holds `[]`, which is not the serialization of the manifest
built in that cycle. -/
theorem stale_empty_file_after_outage :
    (discoverServers (okCycle endToEndResponse)
        (runCycles [okCycle endToEndResponse, outageCycle] (initialState none))).2
        = [Event.mkdirSync]
      ∧ (runCycles [okCycle endToEndResponse, outageCycle, okCycle endToEndResponse]
          (initialState none)).file = some "[]"
      ∧ stringifyTargets (collectTargets endToEndResponse).targets ≠ "[]" := by
  have h1 : discoverServers (okCycle endToEndResponse) (initialState none)
      = ({ file := some (manifestJson endToEndResponse)
           lastTargetsHash := sha256Hex (manifestJson endToEndResponse) },
         [Event.mkdirSync, Event.writeManifest (manifestJson endToEndResponse)]) :=
    discoverServers_written (makeRequest_okCycle endToEndResponse) rfl
      (sha256Hex_ne_empty _) rfl
  have h2 : ∀ st, discoverServers outageCycle st
      = ({ st with file := some "[]" }, [Event.writeEmpty]) := fun st => by
    rw [discoverServers_fetch_error st makeRequest_outageCycle]; rfl
  have h3 : discoverServers (okCycle endToEndResponse)
      { file := some "[]", lastTargetsHash := sha256Hex (manifestJson endToEndResponse) }
      = ({ file := some "[]", lastTargetsHash := sha256Hex (manifestJson endToEndResponse) },
         [Event.mkdirSync]) :=
    discoverServers_unchanged (makeRequest_okCycle endToEndResponse) rfl rfl
  refine ⟨?_, ?_, by decide⟩
  · simp only [runCycles, h1, h2, h3]
  · simp only [runCycles, h1, h2, h3]

end ServiceDiscovery
